import Mathlib

/-!
Shallow embedding of the goa request-dispatch core (`service.go`).

The dispatch core is modelled as explicit state passing over a per-request
world `St` holding the response tracker, the log and the diagnostic
counters.  Go handlers (`func(ctx, rw, req) error`) become Lean functions
`St → Option (St × Option Err)`: the outer `Option` models a Go panic
(`none` = the call panicked, e.g. through a nil function value), the inner
`Option Err` is the returned `error` value (`none` = nil error).

Collaborators of `service.go` that live in other files of the repository
(the `Error` type, `ErrInvalidEncoding`, the response tracker's `Send` and
`Written`, the mux registry, `os.Stat`) are modelled from the spec; their
doc comments say so explicitly.
-/

/-- Modelled from the spec: the structured error type (`*Error`, defined
outside `src/`) "carries an explicit status and message chosen by business
logic". -/
structure GoaError where
  status : Nat
  message : String
deriving DecidableEq

/-- A Go `error` value as seen by the dispatch core: either the structured
`*Error` (the type switch `err.(*Error)` succeeds) or any other error value,
of which only the `Error()` string is observable. -/
inductive Err where
  | structured : GoaError → Err
  | unstructured : String → Err
deriving DecidableEq

/-- `e.Error()`: the textual message of an error value. -/
def Err.message : Err → String
  | .structured e => e.message
  | .unstructured msg => msg

/-- The status resolved from an error value the way `Controller.HandleError`
does: `status := 500; if e, ok := err.(*Error); ok { status = e.Status }`. -/
def Err.status : Err → Nat
  | .structured e => e.status
  | .unstructured _ => 500

/-- A response body handed to `Send`: the error handlers pass either the
structured error itself or a plain string (`e.Error()` / "internal error"). -/
inductive RespBody where
  | errBody : GoaError → RespBody
  | strBody : String → RespBody
deriving DecidableEq

/-- Modelled from the spec: the Response State Tracker (created by
`NewContext`, outside `src/`) "records whether the status line and body have
been written". -/
structure ResponseState where
  written : Bool
  status : Nat
  body : Option RespBody
deriving DecidableEq

/-- Modelled from the spec: `send(status, body)` "fails/no-ops if a response
was already sent for this request; otherwise serializes `body` using the
negotiated content-type, writes the status line, marks written".
Serialization itself is a collaborator and is not modelled. -/
def ResponseState.Send (r : ResponseState) (status : Nat) (body : RespBody) :
    ResponseState :=
  if r.written then r
  else { written := true, status := status, body := some body }

/-- The tracker a fresh request starts with, before anything is written. -/
def freshResponse : ResponseState :=
  { written := false, status := 0, body := none }

/-- The per-request world threaded through handlers: the response tracker,
the log written through the context logger, the diagnostic counters emitted
by `IncrCounter`, and the action name attached by `LogWith`. -/
structure St where
  resp : ResponseState
  log : List String
  counters : List (List String)
  action : String
deriving DecidableEq

/-- `Handler func(context.Context, http.ResponseWriter, *http.Request) error`.
`none` models a panic escaping the call. -/
abbrev Handler := St → Option (St × Option Err)

/-- `Middleware func(Handler) Handler` (from `middleware.go`, used here only
as an abstract handler transformer, exactly as `service.go` does). -/
abbrev Middleware := Handler → Handler

/-- `ErrorHandler func(context.Context, http.ResponseWriter, *http.Request, error)`.
Error handlers in this file are total: they only log and `Send`. -/
abbrev GoaErrorHandler := St → Err → St

/-- The part of `*http.Request` the dispatch core inspects: `ContentLength`
is an `int64` that is negative or zero when the body length is unknown. -/
structure Request where
  contentLength : Int
deriving DecidableEq

/-- `Unmarshaler func(context.Context, *http.Request) error`: may record the
decoded payload in the request state and returns an error value. -/
abbrev Unmarshaler := St → Request → St × Option Err

/-- The slice of `Service` the dispatch core reads: the service-wide error
handler (`Service.ErrorHandler`, reached through `ContextService(ctx)`) and
the mux registry; routes are modelled from the spec as a list of
`(method, path)` registrations. -/
structure Service where
  errorHandler : Option GoaErrorHandler
  mux : List (String × String)

/-- The slice of `Controller` the dispatch core reads: the optional
controller-specific error handler and the controller middleware list. -/
structure Controller where
  name : String
  errorHandler : Option GoaErrorHandler
  middleware : List Middleware

/-- The counter key `IncrCounter` is called with in `Controller.HandleError`:
`[]string{"goa", "handler", "error", strconv.Itoa(status)}`. -/
def handlerErrorCounter (status : Nat) : List String :=
  ["goa", "handler", "error", toString status]

/-- `Controller.HandleError`: resolve the status, fire the diagnostic
counter, then invoke the controller error handler or - if there is not
one - the service error handler. -/
def Controller.HandleError (ctrl : Controller) (svc : Service) (st : St)
    (err : Err) : St :=
  let st1 := { st with counters := st.counters ++ [handlerErrorCounter (Err.status err)] }
  match ctrl.errorHandler with
  | some h => h st1 err
  | none =>
    match svc.errorHandler with
    | some h => h st1 err
    | none => st1

/-- The terminal closure built at the top of `Controller.MuxHandler`
(named `middleware` in the source): skip the business handler if a response
was already written; otherwise run it and, on a non-nil error, log it and
delegate to `Controller.HandleError`; always return a nil error. -/
def dispatchTerminal (ctrl : Controller) (svc : Service) (hdlr : Handler) :
    Handler :=
  fun st =>
    if st.resp.written then some (st, none)
    else
      match hdlr st with
      | none => none
      | some (st1, some err) =>
          let st2 := { st1 with log := st1.log ++ ["ERROR: " ++ Err.message err] }
          some (ctrl.HandleError svc st2 err, none)
      | some (st1, none) => some (st1, none)

/-- The composition loop of `Controller.MuxHandler`:
`for i := range chain { middleware = chain[ml-i-1](middleware) }`, i.e. the
chain is traversed from its last element to its first, each element wrapping
the handler built so far. -/
def composeChain (chain : List Middleware) (h : Handler) : Handler :=
  chain.reverse.foldl (fun acc m => m acc) h

/-- Modelled from the spec: `ErrInvalidEncoding` (defined outside `src/`)
wraps a decode error into the dedicated "invalid payload" error, which is
"always status 400-class". -/
def ErrInvalidEncoding (e : Err) : Err :=
  .structured { status := 400, message := "invalid payload: " ++ Err.message e }

/-- The replacement terminal installed by `Controller.MuxHandler` when the
unmarshaler failed: it invokes `ctrl.ErrorHandler` directly (no nil check,
no service fallback) with `ErrInvalidEncoding(err)` and returns nil.
Invoking a nil Go function value panics, hence `none` in that case. -/
def invalidPayloadClosure (ctrl : Controller) (e : Err) : Handler :=
  fun st =>
    match ctrl.errorHandler with
    | some h => some (h st (ErrInvalidEncoding e), none)
    | none => none

/-- The body-loading step of `Controller.MuxHandler`:
`if req.ContentLength > 0 && unm != nil { err = unm(ctx, req) }`. -/
def decodeStep (unm : Option Unmarshaler) (req : Request) (st : St) :
    St × Option Err :=
  if 0 < req.contentLength then
    match unm with
    | some u => u st req
    | none => (st, none)
  else (st, none)

/-- `Controller.MuxHandler`: compose the middleware chain around the
dispatch terminal, and per request build a fresh context (fresh response
tracker, action name), load the body, on decode failure rebuild the chain
around the invalid-payload closure, invoke the chosen handler and discard
its returned error value. -/
def Controller.MuxHandler (ctrl : Controller) (svc : Service) (name : String)
    (hdlr : Handler) (unm : Option Unmarshaler) (req : Request) (st : St) :
    Option St :=
  let middleware := composeChain ctrl.middleware (dispatchTerminal ctrl svc hdlr)
  let ctxSt : St := { st with resp := freshResponse, action := name }
  let dec := decodeStep unm req ctxSt
  let handler : Handler :=
    match dec.2 with
    | none => middleware
    | some e => composeChain ctrl.middleware (invalidPayloadClosure ctrl e)
  (handler dec.1).map (fun r => r.1)

/-- `DefaultErrorHandler` (the verbose policy): a structured error keeps its
status and is itself the body; any other error becomes 500 with its message
as body; a 500 is logged; the response goes out through `Send`. -/
def DefaultErrorHandler (st : St) (e : Err) : St :=
  let sb : Nat × RespBody :=
    match e with
    | .structured err => (err.status, .errBody err)
    | .unstructured msg => (500, .strBody msg)
  let st1 := if sb.1 = 500 then { st with log := st.log ++ [Err.message e] } else st
  { st1 with resp := st1.resp.Send sb.1 sb.2 }

/-- `TerseErrorHandler`: like the default handler except that the body of a
500 response is always the fixed string "internal error". -/
def TerseErrorHandler (st : St) (e : Err) : St :=
  let sb : Nat × Option RespBody :=
    match e with
    | .structured err =>
        (err.status, if err.status = 500 then none else some (.errBody err))
    | .unstructured _ => (500, none)
  let body := sb.2.getD (.strBody "internal error")
  let st1 := if sb.1 = 500 then { st with log := st.log ++ [Err.message e] } else st
  { st1 with resp := st1.resp.Send sb.1 body }

/-- Modelled from the spec: the filesystem stat collaborator of
`Service.ServeFiles` (`os.Stat` succeeds or fails for a name). -/
structure FileSystem where
  statOk : String → Bool

/-- `Service.ServeFiles`: reject a path containing a colon, reject a file
that does not stat, otherwise register exactly one GET route on the mux
(`service.Mux.Handle("GET", path, handle)`) and return nil.  The registered
entry point serves files through the standard library and is a collaborator
outside the dispatch core; the model records the `(method, path)`
registration, which is all the route table observes. -/
def Service.ServeFiles (svc : Service) (fs : FileSystem) (path filename : String) :
    Service × Option String :=
  if path.contains ':' then
    (svc, some "path may only include wildcards that match the entire end of the URL (e.g. *filepath)")
  else if fs.statOk filename = false then
    (svc, some ("ServeFiles: stat error for " ++ filename))
  else
    ({ svc with mux := svc.mux ++ [("GET", path)] }, none)

/-! Concrete fixtures used by witnesses and counterexamples. -/

/-- An empty per-request world: fresh tracker, nothing logged or counted. -/
def stEx : St := { resp := freshResponse, log := [], counters := [], action := "" }

/-- A recording controller error handler: marks the log when invoked. -/
def ctrlRecEH : GoaErrorHandler := fun st _e => { st with log := st.log ++ ["ctrlEH"] }

/-- A recording service error handler: marks the log when invoked. -/
def svcRecEH : GoaErrorHandler := fun st _e => { st with log := st.log ++ ["svcEH"] }

/-- A middleware that returns an error to its caller without invoking the
inner handler. -/
def errMw : Middleware := fun _inner => fun st => some (st, some (.unstructured "boom"))

/-- An observability middleware: marks the log, then calls the inner handler. -/
def obsMw : Middleware := fun inner => fun st => inner { st with log := st.log ++ ["obs"] }

/-- A business handler that succeeds without writing. -/
def hdlrOk : Handler := fun st => some (st, none)

/-- A business handler that returns an unstructured error. -/
def hdlrErr : Handler := fun st => some (st, some (.unstructured "boom"))

/-- A service whose error handler is the recording one. -/
def svcRec : Service := { errorHandler := some svcRecEH, mux := [] }

/-- A controller with the recording error handler and the error-returning
middleware mounted. -/
def ctrlMwErr : Controller :=
  { name := "C", errorHandler := some ctrlRecEH, middleware := [errMw] }

/-- A controller with the recording error handler and the observability
middleware mounted. -/
def ctrlObs : Controller :=
  { name := "C", errorHandler := some ctrlRecEH, middleware := [obsMw] }

/-- A controller with no error handler of its own and no middleware. -/
def ctrlBare : Controller := { name := "C", errorHandler := none, middleware := [] }

/-- An unmarshaler that always fails. -/
def unmFail : Unmarshaler := fun st _req => (st, some (.unstructured "bad json"))

/-- An unmarshaler that records its invocation in the log and succeeds. -/
def unmRec : Unmarshaler :=
  fun st _req => ({ st with log := st.log ++ ["decoded"] }, none)

/-! Theorems for the claims. -/

/-- Claim C2: the handler composed by the dispatch adapter from middleware
list `chain` and terminal `h` is the right fold `m1 (m2 (... (mn h)))`: the
first-registered middleware is the outermost layer and the last-registered
wraps closest to the terminal handler; in particular for three middleware
the composite is `m1 (m2 (m3 h))`. -/
theorem claim_C2 (chain : List Middleware) (h : Handler) (m1 m2 m3 : Middleware) :
    composeChain chain h = chain.foldr (fun m acc => m acc) h
    ∧ composeChain [m1, m2, m3] h = m1 (m2 (m3 h)) := by
  constructor
  · unfold composeChain
    rw [List.foldl_reverse]
  · rfl

/-- Claim C4: a second `Send` on an already-written tracker is a no-op that
leaves the sent status and body unchanged, and both error-handler policies
touch the response only through one `Send` of the tracker. -/
theorem claim_C4 (r : ResponseState) (s : Nat) (b : RespBody) (st : St) (e : Err)
    (hw : r.written = true) :
    r.Send s b = r
    ∧ (∃ s1 b1, (DefaultErrorHandler st e).resp = st.resp.Send s1 b1)
    ∧ (∃ s1 b1, (TerseErrorHandler st e).resp = st.resp.Send s1 b1) := by
  refine ⟨by simp [ResponseState.Send, hw], ?_, ?_⟩
  · cases e with
    | structured err =>
        exact ⟨err.status, .errBody err, by simp [DefaultErrorHandler]; split <;> simp⟩
    | unstructured msg =>
        exact ⟨500, .strBody msg, by simp [DefaultErrorHandler]⟩
  · cases e with
    | structured err =>
        by_cases h5 : err.status = 500
        · exact ⟨err.status, .strBody "internal error", by simp [TerseErrorHandler, h5]⟩
        · exact ⟨err.status, .errBody err, by simp [TerseErrorHandler, h5]⟩
    | unstructured msg =>
        exact ⟨500, .strBody "internal error", by simp [TerseErrorHandler]⟩

/-- Witness for C4 at the spec's own test values: after `send(200, A)` the
tracker is written, a subsequent `send(500, B)` leaves `200, A` in place,
and both policies write through `Send`. -/
theorem claim_C4_witness :
    (freshResponse.Send 200 (.strBody "A")).written = true
    ∧ ((freshResponse.Send 200 (.strBody "A")).Send 500 (.strBody "B")
        = freshResponse.Send 200 (.strBody "A")
      ∧ (∃ s1 b1, (DefaultErrorHandler stEx (.unstructured "boom")).resp
          = stEx.resp.Send s1 b1)
      ∧ (∃ s1 b1, (TerseErrorHandler stEx (.unstructured "boom")).resp
          = stEx.resp.Send s1 b1)) :=
  ⟨by decide, claim_C4 (freshResponse.Send 200 (.strBody "A")) 500 (.strBody "B")
    stEx (.unstructured "boom") (by decide)⟩

/-- Claim C5: the dispatch terminal queries the tracker's written flag
before invoking the business handler; on an already-written response it
returns immediately with a nil error, and its result does not depend on the
business handler at all; the mux entry point wraps exactly this terminal in
the controller's middleware chain. -/
theorem claim_C5 (ctrl : Controller) (svc : Service) (hdlr hdlr2 : Handler)
    (nm : String) (req : Request) (st stw : St)
    (hw : stw.resp.written = true) :
    dispatchTerminal ctrl svc hdlr stw = some (stw, none)
    ∧ dispatchTerminal ctrl svc hdlr stw = dispatchTerminal ctrl svc hdlr2 stw
    ∧ Controller.MuxHandler ctrl svc nm hdlr none req st
        = ((composeChain ctrl.middleware (dispatchTerminal ctrl svc hdlr))
            { st with resp := freshResponse, action := nm }).map (fun r => r.1) := by
  refine ⟨by simp [dispatchTerminal, hw], by simp [dispatchTerminal, hw], ?_⟩
  unfold Controller.MuxHandler decodeStep
  split <;> rfl

/-- Witness for C5: on a request whose response was already sent (status
200, body A), the terminal skips a business handler that would have
returned an error, and the entry-point equation holds at concrete values. -/
theorem claim_C5_witness :
    ({ stEx with resp := freshResponse.Send 200 (.strBody "A") } : St).resp.written = true
    ∧ (dispatchTerminal ctrlObs svcRec hdlrErr
          { stEx with resp := freshResponse.Send 200 (.strBody "A") }
        = some ({ stEx with resp := freshResponse.Send 200 (.strBody "A") }, none)
      ∧ dispatchTerminal ctrlObs svcRec hdlrErr
          { stEx with resp := freshResponse.Send 200 (.strBody "A") }
        = dispatchTerminal ctrlObs svcRec hdlrOk
          { stEx with resp := freshResponse.Send 200 (.strBody "A") }
      ∧ Controller.MuxHandler ctrlObs svcRec "act" hdlrErr none { contentLength := 0 } stEx
        = ((composeChain ctrlObs.middleware (dispatchTerminal ctrlObs svcRec hdlrErr))
            { stEx with resp := freshResponse, action := "act" }).map (fun r => r.1)) :=
  ⟨by decide, claim_C5 ctrlObs svcRec hdlrErr hdlrOk "act" { contentLength := 0 }
    stEx { stEx with resp := freshResponse.Send 200 (.strBody "A") } (by decide)⟩

/-- Claim C6: the terse policy on a fresh response sends a structured
error's own status and body unless the status is 500, in which case (and for
every unstructured error) it sends status 500 with the fixed body
"internal error"; exactly the 500 responses append the error's message to
the log. -/
theorem claim_C6 (st : St) (ge : GoaError) (msg : String)
    (hw : st.resp.written = false) :
    (ge.status ≠ 500 →
      TerseErrorHandler st (.structured ge)
        = { st with resp := { written := true, status := ge.status, body := some (.errBody ge) } })
    ∧ (ge.status = 500 →
      TerseErrorHandler st (.structured ge)
        = { st with log := st.log ++ [ge.message],
                    resp := { written := true, status := 500,
                              body := some (.strBody "internal error") } })
    ∧ TerseErrorHandler st (.unstructured msg)
        = { st with log := st.log ++ [msg],
                    resp := { written := true, status := 500,
                              body := some (.strBody "internal error") } } := by
  refine ⟨fun h5 => ?_, fun h5 => ?_, ?_⟩
  · simp [TerseErrorHandler, Err.message, ResponseState.Send, h5, hw]
  · simp [TerseErrorHandler, Err.message, ResponseState.Send, h5, hw]
  · simp [TerseErrorHandler, Err.message, ResponseState.Send, hw]

/-- Witness for C6 at a structured 404 and an unstructured error on a fresh
response. -/
theorem claim_C6_witness :
    (stEx.resp.written = false)
    ∧ (((⟨404, "not found"⟩ : GoaError).status ≠ 500 →
        TerseErrorHandler stEx (.structured ⟨404, "not found"⟩)
          = { stEx with resp := { written := true,
                                  status := (⟨404, "not found"⟩ : GoaError).status,
                                  body := some (.errBody ⟨404, "not found"⟩) } })
      ∧ ((⟨404, "not found"⟩ : GoaError).status = 500 →
        TerseErrorHandler stEx (.structured ⟨404, "not found"⟩)
          = { stEx with log := stEx.log ++ [(⟨404, "not found"⟩ : GoaError).message],
                        resp := { written := true, status := 500,
                                  body := some (.strBody "internal error") } })
      ∧ TerseErrorHandler stEx (.unstructured "boom")
          = { stEx with log := stEx.log ++ ["boom"],
                        resp := { written := true, status := 500,
                                  body := some (.strBody "internal error") } }) :=
  ⟨by decide, claim_C6 stEx ⟨404, "not found"⟩ "boom" (by decide)⟩

/-- Claim C7: the verbose policy on a fresh response sends a structured
error's own status with the structured body (also at status 500), and an
unstructured error as status 500 with the error's message as body; the 500
responses append the message to the log; and a structured 404 yields status
404 with the structured body under both policies. -/
theorem claim_C7 (st : St) (ge : GoaError) (msg : String)
    (hw : st.resp.written = false) :
    (ge.status ≠ 500 →
      DefaultErrorHandler st (.structured ge)
        = { st with resp := { written := true, status := ge.status, body := some (.errBody ge) } })
    ∧ (ge.status = 500 →
      DefaultErrorHandler st (.structured ge)
        = { st with log := st.log ++ [ge.message],
                    resp := { written := true, status := 500, body := some (.errBody ge) } })
    ∧ DefaultErrorHandler st (.unstructured msg)
        = { st with log := st.log ++ [msg],
                    resp := { written := true, status := 500, body := some (.strBody msg) } }
    ∧ (ge.status = 404 →
      DefaultErrorHandler st (.structured ge)
        = { st with resp := { written := true, status := 404, body := some (.errBody ge) } }
      ∧ TerseErrorHandler st (.structured ge)
        = { st with resp := { written := true, status := 404, body := some (.errBody ge) } }) := by
  refine ⟨fun h5 => ?_, fun h5 => ?_, ?_, fun h4 => ⟨?_, ?_⟩⟩
  · simp [DefaultErrorHandler, Err.message, ResponseState.Send, h5, hw]
  · simp [DefaultErrorHandler, Err.message, ResponseState.Send, h5, hw]
  · simp [DefaultErrorHandler, Err.message, ResponseState.Send, hw]
  · simp [DefaultErrorHandler, Err.message, ResponseState.Send, h4, hw]
  · simp [TerseErrorHandler, Err.message, ResponseState.Send, h4, hw]

/-- Witness for C7 at a structured 404 and an unstructured error on a fresh
response. -/
theorem claim_C7_witness :
    (stEx.resp.written = false)
    ∧ (((⟨404, "not found"⟩ : GoaError).status ≠ 500 →
        DefaultErrorHandler stEx (.structured ⟨404, "not found"⟩)
          = { stEx with resp := { written := true,
                                  status := (⟨404, "not found"⟩ : GoaError).status,
                                  body := some (.errBody ⟨404, "not found"⟩) } })
      ∧ ((⟨404, "not found"⟩ : GoaError).status = 500 →
        DefaultErrorHandler stEx (.structured ⟨404, "not found"⟩)
          = { stEx with log := stEx.log ++ [(⟨404, "not found"⟩ : GoaError).message],
                        resp := { written := true, status := 500,
                                  body := some (.errBody ⟨404, "not found"⟩) } })
      ∧ DefaultErrorHandler stEx (.unstructured "boom")
          = { stEx with log := stEx.log ++ ["boom"],
                        resp := { written := true, status := 500,
                                  body := some (.strBody "boom") } }
      ∧ ((⟨404, "not found"⟩ : GoaError).status = 404 →
        DefaultErrorHandler stEx (.structured ⟨404, "not found"⟩)
          = { stEx with resp := { written := true, status := 404,
                                  body := some (.errBody ⟨404, "not found"⟩) } }
        ∧ TerseErrorHandler stEx (.structured ⟨404, "not found"⟩)
          = { stEx with resp := { written := true, status := 404,
                                  body := some (.errBody ⟨404, "not found"⟩) } })) :=
  ⟨by decide, claim_C7 stEx ⟨404, "not found"⟩ "boom" (by decide)⟩

/-- Counterexample to C1 as stated: mount one middleware that returns the
error "boom" to the dispatch adapter (without calling the inner handler) on
a controller whose error handler and whose service's error handler are both
recording handlers.  The middleware hands its error up the composed chain,
yet the entry point discards it: the final state shows an empty log (neither
recorder ran), no diagnostic counter, and an unwritten response - the error
was handed to zero error handlers. -/
theorem claim_C1_counterexample :
    errMw (dispatchTerminal ctrlMwErr svcRec hdlrOk)
        { stEx with resp := freshResponse, action := "act" }
      = some ({ stEx with resp := freshResponse, action := "act" },
              some (.unstructured "boom"))
    ∧ Controller.MuxHandler ctrlMwErr svcRec "act" hdlrOk none { contentLength := 0 } stEx
      = some { resp := freshResponse, log := [], counters := [], action := "act" } := by
  constructor <;> rfl

/-- Claim C1 amended: an error returned by the business handler never panics
the request task and is handed (after being logged) to exactly one error
handler - the controller-level one if set, otherwise the service-level
one; an error returned by a middleware to the entry point is discarded
without reaching any error handler. -/
theorem claim_C1_amended (ctrl : Controller) (svc : Service) (hdlr : Handler)
    (st st1 stX : St) (err errX : Err) (ch sh : GoaErrorHandler)
    (hw : st.resp.written = false) (hh : hdlr st = some (st1, some err)) :
    dispatchTerminal ctrl svc hdlr st
      = some (Controller.HandleError ctrl svc
          { st1 with log := st1.log ++ ["ERROR: " ++ Err.message err] } err, none)
    ∧ (ctrl.errorHandler = some ch →
        Controller.HandleError ctrl svc stX errX
          = ch { stX with counters := stX.counters ++ [handlerErrorCounter (Err.status errX)] } errX)
    ∧ (ctrl.errorHandler = none → svc.errorHandler = some sh →
        Controller.HandleError ctrl svc stX errX
          = sh { stX with counters := stX.counters ++ [handlerErrorCounter (Err.status errX)] } errX) := by
  refine ⟨?_, fun hc => ?_, fun hc hs => ?_⟩
  · simp [dispatchTerminal, hw, hh]
  · simp [Controller.HandleError, hc]
  · simp [Controller.HandleError, hc, hs]

/-- Witness for the amended C1: a business handler returning "boom" on a
fresh response, with a controller-level recording error handler set. -/
theorem claim_C1_amended_witness :
    (stEx.resp.written = false ∧ hdlrErr stEx = some (stEx, some (.unstructured "boom")))
    ∧ (dispatchTerminal ctrlObs svcRec hdlrErr stEx
        = some (Controller.HandleError ctrlObs svcRec
            { stEx with log := stEx.log ++ ["ERROR: " ++ Err.message (.unstructured "boom")] }
            (.unstructured "boom"), none)
      ∧ (ctrlObs.errorHandler = some ctrlRecEH →
          Controller.HandleError ctrlObs svcRec stEx (.unstructured "boom")
            = ctrlRecEH { stEx with counters := stEx.counters
                ++ [handlerErrorCounter (Err.status (.unstructured "boom"))] }
              (.unstructured "boom"))
      ∧ (ctrlObs.errorHandler = none → svcRec.errorHandler = some svcRecEH →
          Controller.HandleError ctrlObs svcRec stEx (.unstructured "boom")
            = svcRecEH { stEx with counters := stEx.counters
                ++ [handlerErrorCounter (Err.status (.unstructured "boom"))] }
              (.unstructured "boom"))) :=
  ⟨⟨by decide, rfl⟩,
    claim_C1_amended ctrlObs svcRec hdlrErr stEx stEx stEx (.unstructured "boom")
      (.unstructured "boom") ctrlRecEH svcRecEH (by decide) rfl⟩

/-- Claim C3: when the request declares a positive-length body and the
supplied unmarshaler fails, the entry point runs the middleware chain
rebuilt around the invalid-payload closure (so observability middleware
still fires), the result is independent of the business handler (it is
never invoked), and the dedicated error carries status 400. -/
theorem claim_C3 (ctrl : Controller) (svc : Service) (nm : String)
    (hdlr hdlr2 : Handler) (u : Unmarshaler) (req : Request) (st st1 : St) (e : Err)
    (hcl : 0 < req.contentLength)
    (hu : u { st with resp := freshResponse, action := nm } req = (st1, some e)) :
    Controller.MuxHandler ctrl svc nm hdlr (some u) req st
      = ((composeChain ctrl.middleware (invalidPayloadClosure ctrl e)) st1).map (fun r => r.1)
    ∧ Controller.MuxHandler ctrl svc nm hdlr (some u) req st
      = Controller.MuxHandler ctrl svc nm hdlr2 (some u) req st
    ∧ Err.status (ErrInvalidEncoding e) = 400 := by
  refine ⟨?_, ?_, rfl⟩ <;>
    simp [Controller.MuxHandler, decodeStep, hcl, hu]

/-- Witness for C3: a failing unmarshaler on a 5-byte body, with an
observability middleware and a recording controller error handler mounted. -/
theorem claim_C3_witness :
    ((0 : Int) < ({ contentLength := 5 } : Request).contentLength
      ∧ unmFail { stEx with resp := freshResponse, action := "act" } { contentLength := 5 }
        = ({ stEx with resp := freshResponse, action := "act" },
           some (.unstructured "bad json")))
    ∧ (Controller.MuxHandler ctrlObs svcRec "act" hdlrErr (some unmFail)
          { contentLength := 5 } stEx
        = ((composeChain ctrlObs.middleware
            (invalidPayloadClosure ctrlObs (.unstructured "bad json")))
            { stEx with resp := freshResponse, action := "act" }).map (fun r => r.1)
      ∧ Controller.MuxHandler ctrlObs svcRec "act" hdlrErr (some unmFail)
          { contentLength := 5 } stEx
        = Controller.MuxHandler ctrlObs svcRec "act" hdlrOk (some unmFail)
          { contentLength := 5 } stEx
      ∧ Err.status (ErrInvalidEncoding (.unstructured "bad json")) = 400) :=
  ⟨⟨by decide, rfl⟩,
    claim_C3 ctrlObs svcRec "act" hdlrErr hdlrOk unmFail { contentLength := 5 }
      stEx { stEx with resp := freshResponse, action := "act" }
      (.unstructured "bad json") (by decide) rfl⟩

/-- Claim C8: the invalid-payload closure invokes the controller's error
handler field directly - the equation does not consult the service - and
when that field is nil the closure is a nil-function call, i.e. a panic,
with no service fallback; the normal `HandleError` path by contrast falls
back to the service handler when the controller has none. -/
theorem claim_C8 (ctrl ctrlN : Controller) (svc : Service) (st stX : St)
    (e errX : Err) (h sh : GoaErrorHandler)
    (hc : ctrl.errorHandler = some h) (hn : ctrlN.errorHandler = none)
    (hs : svc.errorHandler = some sh) :
    invalidPayloadClosure ctrl e st = some (h st (ErrInvalidEncoding e), none)
    ∧ invalidPayloadClosure ctrlN e st = none
    ∧ Controller.HandleError ctrlN svc stX errX
        = sh { stX with counters := stX.counters ++ [handlerErrorCounter (Err.status errX)] } errX := by
  refine ⟨?_, ?_, ?_⟩
  · simp [invalidPayloadClosure, hc]
  · simp [invalidPayloadClosure, hn]
  · simp [Controller.HandleError, hn, hs]

/-- Witness for C8: a controller with the recording error handler versus a
bare controller with none, over a service whose handler records. -/
theorem claim_C8_witness :
    (ctrlObs.errorHandler = some ctrlRecEH ∧ ctrlBare.errorHandler = none
      ∧ svcRec.errorHandler = some svcRecEH)
    ∧ (invalidPayloadClosure ctrlObs (.unstructured "bad json") stEx
        = some (ctrlRecEH stEx (ErrInvalidEncoding (.unstructured "bad json")), none)
      ∧ invalidPayloadClosure ctrlBare (.unstructured "bad json") stEx = none
      ∧ Controller.HandleError ctrlBare svcRec stEx (.unstructured "boom")
          = svcRecEH { stEx with counters := stEx.counters
              ++ [handlerErrorCounter (Err.status (.unstructured "boom"))] }
            (.unstructured "boom")) :=
  ⟨⟨rfl, rfl, rfl⟩,
    claim_C8 ctrlObs ctrlBare svcRec stEx stEx (.unstructured "bad json")
      (.unstructured "boom") ctrlRecEH svcRecEH rfl rfl rfl⟩

/-- Claim C9: the unmarshaler runs exactly when the request's ContentLength
is strictly positive and the unmarshaler is non-nil: with a non-positive
ContentLength the body-loading step is skipped and dispatch is identical to
dispatch with a nil unmarshaler, while with a positive ContentLength the
step is exactly one invocation of the unmarshaler (and still a no-op when
the unmarshaler is nil). -/
theorem claim_C9 (ctrl : Controller) (svc : Service) (nm : String)
    (hdlr : Handler) (u : Unmarshaler) (req reqP : Request) (st : St)
    (hcl : req.contentLength ≤ 0) (hp : 0 < reqP.contentLength) :
    decodeStep (some u) req st = (st, none)
    ∧ decodeStep (some u) reqP st = u st reqP
    ∧ decodeStep none reqP st = (st, none)
    ∧ Controller.MuxHandler ctrl svc nm hdlr (some u) req st
        = Controller.MuxHandler ctrl svc nm hdlr none req st := by
  refine ⟨?_, ?_, ?_, ?_⟩
  · simp [decodeStep, not_lt.mpr hcl]
  · simp [decodeStep, hp]
  · simp [decodeStep, hp]
  · simp [Controller.MuxHandler, decodeStep, not_lt.mpr hcl]

/-- Witness for C9: a chunked request (ContentLength -1) never invokes the
recording unmarshaler, a 5-byte request invokes it exactly once. -/
theorem claim_C9_witness :
    (({ contentLength := -1 } : Request).contentLength ≤ 0
      ∧ (0 : Int) < ({ contentLength := 5 } : Request).contentLength)
    ∧ (decodeStep (some unmRec) { contentLength := -1 } stEx = (stEx, none)
      ∧ decodeStep (some unmRec) { contentLength := 5 } stEx
          = unmRec stEx { contentLength := 5 }
      ∧ decodeStep none { contentLength := 5 } stEx = (stEx, none)
      ∧ Controller.MuxHandler ctrlObs svcRec "act" hdlrOk (some unmRec)
          { contentLength := -1 } stEx
        = Controller.MuxHandler ctrlObs svcRec "act" hdlrOk none
          { contentLength := -1 } stEx) :=
  ⟨⟨by decide, by decide⟩,
    claim_C9 ctrlObs svcRec "act" hdlrOk unmRec { contentLength := -1 }
      { contentLength := 5 } stEx (by decide) (by decide)⟩

/-- Claim C10: `ServeFiles` returns an error and leaves the route table
unchanged when the path contains a colon or when the named file does not
stat; otherwise it registers exactly one GET route for the path and returns
nil. -/
theorem claim_C10 (svc : Service) (fs : FileSystem) (path filename : String) :
    (path.contains ':' = true →
      Service.ServeFiles svc fs path filename
        = (svc, some "path may only include wildcards that match the entire end of the URL (e.g. *filepath)"))
    ∧ (path.contains ':' = false → fs.statOk filename = false →
      Service.ServeFiles svc fs path filename
        = (svc, some ("ServeFiles: stat error for " ++ filename)))
    ∧ (path.contains ':' = false → fs.statOk filename = true →
      Service.ServeFiles svc fs path filename
        = ({ svc with mux := svc.mux ++ [("GET", path)] }, none)) := by
  refine ⟨fun hp => ?_, fun hp hs => ?_, fun hp hs => ?_⟩
  · simp [Service.ServeFiles, hp]
  · simp [Service.ServeFiles, hp, hs]
  · simp [Service.ServeFiles, hp, hs]

/-- A filesystem fixture on which only the name "present" stats. -/
def fsEx : FileSystem := { statOk := fun n => n == "present" }

/-- Witness for C10 on a colon-free path and an existing file: exactly one
GET route is added and nil is returned (the error branches hold vacuously at
this input). -/
theorem claim_C10_witness :
    (("/assets/img".contains ':' = true →
      Service.ServeFiles svcRec fsEx "/assets/img" "present"
        = (svcRec, some "path may only include wildcards that match the entire end of the URL (e.g. *filepath)"))
    ∧ ("/assets/img".contains ':' = false → fsEx.statOk "present" = false →
      Service.ServeFiles svcRec fsEx "/assets/img" "present"
        = (svcRec, some ("ServeFiles: stat error for " ++ "present")))
    ∧ ("/assets/img".contains ':' = false → fsEx.statOk "present" = true →
      Service.ServeFiles svcRec fsEx "/assets/img" "present"
        = ({ svcRec with mux := svcRec.mux ++ [("GET", "/assets/img")] }, none))) :=
  claim_C10 svcRec fsEx "/assets/img" "present"
